import Mathlib

/-!
Verification of the TolimaGo REST backend (TypeScript/Mongoose) against its
natural-language specification.  Each Mongoose model method and service
function relevant to the claims is shallowly embedded as an executable Lean
definition; dates are modelled as integer milliseconds since the epoch, the
floating-point hour arithmetic of the source as exact rational arithmetic,
and Mongoose documents as Lean structures.
-/

namespace TolimaGo

/-- MongoDB object ids, abstracted: only identity matters to the claims. -/
structure ObjectId where
  oid : Nat
deriving DecidableEq, Repr

/-- `BookingStatus` enum from `core/interfaces/index.ts`. -/
inductive BookingStatus
  | pending
  | confirmed
  | cancelled
  | completed
deriving DecidableEq, Repr

/-- One entry of `statusHistory` (`Booking.ts`, `statusHistory` schema path).
`updatedAt` is milliseconds since the epoch. -/
structure StatusHistoryEntry where
  status : BookingStatus
  updatedAt : Int
  updatedBy : ObjectId
  notes : Option String
deriving DecidableEq, Repr

/-- `bookingDetails.guests` sub-document of `Booking.ts`. -/
structure Guests where
  adults : Int
  children : Int
  infants : Int
deriving DecidableEq, Repr

/-- `bookingDetails` sub-document of `Booking.ts` (time-slot strings are not
needed by any claim and are omitted; `dateRequested` is epoch milliseconds). -/
structure BookingDetails where
  dateRequested : Int
  guests : Guests
  totalGuests : Int
deriving DecidableEq, Repr

/-- The booking document (`Booking.ts`), restricted to the fields the claims
are about. -/
structure Booking where
  user : ObjectId
  bookingDetails : BookingDetails
  status : BookingStatus
  statusHistory : List StatusHistoryEntry
  confirmationCode : String
deriving DecidableEq, Repr

/-- Milliseconds in one hour, the divisor `1000 * 60 * 60` of the source. -/
def msPerHour : Int := 1000 * 60 * 60

/-- `hoursUntilBooking` as computed inside `canBeCancelled` / `canBeModified`
(`Booking.ts:357`): `(bookingDate.getTime() - now.getTime()) / (1000*60*60)`,
an exact rational here. -/
def hoursUntilBooking (b : Booking) (now : Int) : ℚ :=
  ((b.bookingDetails.dateRequested - now : Int) : ℚ) / ((msPerHour : Int) : ℚ)

/-- `cancellableStatuses` from `Booking.ts:354`. -/
def cancellableStatuses : List BookingStatus := [.pending, .confirmed]

/-- `modifiableStatuses` from `Booking.ts:364`. -/
def modifiableStatuses : List BookingStatus := [.pending, .confirmed]

/-- `canBeCancelled` (`Booking.ts:353-360`). -/
def Booking.canBeCancelled (b : Booking) (now : Int) : Bool :=
  decide (b.status ∈ cancellableStatuses) && decide (hoursUntilBooking b now > 24)

/-- `canBeModified` (`Booking.ts:363-370`). -/
def Booking.canBeModified (b : Booking) (now : Int) : Bool :=
  decide (b.status ∈ modifiableStatuses) && decide (hoursUntilBooking b now > 48)

/-- `addStatusUpdate` (`Booking.ts:373-384`): pushes one entry onto
`statusHistory`. -/
def Booking.addStatusUpdate (b : Booking) (status : BookingStatus)
    (updatedBy : ObjectId) (now : Int) (notes : Option String) : Booking :=
  { b with statusHistory :=
      b.statusHistory ++ [{ status := status, updatedAt := now,
                            updatedBy := updatedBy, notes := notes }] }

/-- The `bookingSchema.pre` save hook (`Booking.ts:320-337`): recomputes
`totalGuests`, fills in a generated confirmation code when the field is empty
(the generated code is nondeterministic in the source, so it is a parameter
here), and, when the status path was modified, appends a history entry via
`addStatusUpdate(this.status, this.user.toString())`. -/
def Booking.preSave (b : Booking) (statusModified : Bool) (genCode : String)
    (now : Int) : Booking :=
  let b1 := { b with bookingDetails :=
    { b.bookingDetails with totalGuests :=
        b.bookingDetails.guests.adults + b.bookingDetails.guests.children +
        b.bookingDetails.guests.infants } }
  let b2 := if b1.confirmationCode = "" then { b1 with confirmationCode := genCode } else b1
  if statusModified then b2.addStatusUpdate b2.status b2.user now none else b2

/-- Mongoose schema validation on the guest sub-document (`Booking.ts:133-148`):
`adults` has `min: 1`, `children` and `infants` have `min: 0`. -/
def guestsValid (g : Guests) : Prop :=
  1 ≤ g.adults ∧ 0 ≤ g.children ∧ 0 ≤ g.infants

instance (g : Guests) : Decidable (guestsValid g) := by
  unfold guestsValid; infer_instance

/-- A concrete booking used to instantiate the theorems: owned by user 1,
requested 72 hours after the epoch, pending, with 2 adults and 1 child. -/
def bookingA : Booking :=
  { user := ⟨1⟩
    bookingDetails :=
      { dateRequested := 72 * msPerHour
        guests := { adults := 2, children := 1, infants := 0 }
        totalGuests := 3 }
    status := .pending
    statusHistory := []
    confirmationCode := "TOLX" }

/-- The rational comparison `hoursUntilBooking > k` of the source is the exact
integer comparison `k` hours in milliseconds `<` time remaining. -/
theorem hoursUntilBooking_gt_iff (b : Booking) (now k : Int) :
    ((k : ℚ) < hoursUntilBooking b now) ↔
      k * msPerHour < b.bookingDetails.dateRequested - now := by
  unfold hoursUntilBooking
  rw [lt_div_iff₀ (by norm_num [msPerHour])]
  exact_mod_cast Iff.rfl

/-- C1: `canBeCancelled()` is true iff the status is pending or confirmed and
the requested date is strictly more than 24 hours after `now`; at exactly
24 hours before the requested date it is false. -/
theorem canBeCancelled_iff_status_and_24h (b : Booking) (now : Int) :
    (b.canBeCancelled now = true ↔
       ((b.status = .pending ∨ b.status = .confirmed) ∧
         24 * msPerHour < b.bookingDetails.dateRequested - now)) ∧
    (b.bookingDetails.dateRequested - now = 24 * msPerHour →
       b.canBeCancelled now = false) := by
  have hiff : b.canBeCancelled now = true ↔
      ((b.status = .pending ∨ b.status = .confirmed) ∧
        24 * msPerHour < b.bookingDetails.dateRequested - now) := by
    unfold Booking.canBeCancelled cancellableStatuses
    rw [Bool.and_eq_true, decide_eq_true_eq, decide_eq_true_eq, gt_iff_lt]
    rw [show ((24 : ℚ) = ((24 : Int) : ℚ)) by norm_num, hoursUntilBooking_gt_iff]
    simp [List.mem_cons]
  refine ⟨hiff, fun heq => ?_⟩
  cases hc : b.canBeCancelled now with
  | false => rfl
  | true => exact absurd ((hiff.mp hc).2) (by rw [heq]; exact lt_irrefl _)

/-- Instantiation of the C1 theorem at a concrete booking 72 hours out. -/
theorem canBeCancelled_iff_status_and_24h_witness :
    bookingA.canBeCancelled 0 = true :=
  (canBeCancelled_iff_status_and_24h bookingA 0).1.mpr ⟨Or.inl rfl, by decide⟩

/-- C8: whenever `canBeModified()` is true, `canBeCancelled()` is also true:
both require status pending or confirmed, and more than 48 hours of margin
implies more than 24. -/
theorem canBeModified_implies_canBeCancelled (b : Booking) (now : Int)
    (h : b.canBeModified now = true) : b.canBeCancelled now = true := by
  unfold Booking.canBeModified modifiableStatuses at h
  unfold Booking.canBeCancelled cancellableStatuses
  rw [Bool.and_eq_true, decide_eq_true_eq, decide_eq_true_eq] at h ⊢
  exact ⟨h.1, lt_trans (by norm_num) h.2⟩

/-- Instantiation of the C8 theorem at a concrete booking 72 hours out. -/
theorem canBeModified_implies_canBeCancelled_witness :
    bookingA.canBeCancelled (12 * msPerHour) = true :=
  canBeModified_implies_canBeCancelled bookingA (12 * msPerHour) (by
    rw [Booking.canBeModified, Bool.and_eq_true, decide_eq_true_eq,
      decide_eq_true_eq]
    refine ⟨by simp [bookingA, modifiableStatuses], ?_⟩
    rw [gt_iff_lt, show ((48 : ℚ) = ((48 : Int) : ℚ)) by norm_num,
      hoursUntilBooking_gt_iff]
    norm_num [bookingA, msPerHour])

/-- C2: the pre-save hook appends exactly one history entry when (and only
when) the status path was modified, recording the new status, the timestamp
and the booking's user, and never drops or edits existing entries; likewise
`addStatusUpdate` appends exactly one entry recording its arguments. -/
theorem statusHistory_append_only (b : Booking) (sm : Bool) (genCode : String)
    (now : Int) (st : BookingStatus) (who : ObjectId) (notes : Option String) :
    (b.preSave sm genCode now).statusHistory =
      b.statusHistory ++
        (if sm then
           [{ status := b.status, updatedAt := now, updatedBy := b.user,
              notes := none }]
         else []) ∧
    (b.addStatusUpdate st who now notes).statusHistory =
      b.statusHistory ++
        [{ status := st, updatedAt := now, updatedBy := who, notes := notes }] := by
  constructor
  · unfold Booking.preSave Booking.addStatusUpdate
    cases sm <;> by_cases hcc : b.confirmationCode = "" <;> simp [hcc]
  · rfl

/-- Instantiation of the C2 theorem: a status-modifying save of the concrete
booking appends exactly the entry for its user and current status. -/
theorem statusHistory_append_only_witness :
    (bookingA.preSave true "TOLC" 5).statusHistory =
      [{ status := .pending, updatedAt := 5, updatedBy := ⟨1⟩, notes := none }] := by
  simpa using
    (statusHistory_append_only bookingA true "TOLC" 5 .pending ⟨1⟩ none).1

/-- C3: after any save of a schema-valid guest breakdown, `totalGuests` equals
`adults + children + infants` and is at least 1. -/
theorem totalGuests_sum_after_save (b : Booking) (sm : Bool) (genCode : String)
    (now : Int) (h : guestsValid b.bookingDetails.guests) :
    (b.preSave sm genCode now).bookingDetails.totalGuests =
      (b.preSave sm genCode now).bookingDetails.guests.adults +
        (b.preSave sm genCode now).bookingDetails.guests.children +
        (b.preSave sm genCode now).bookingDetails.guests.infants ∧
    1 ≤ (b.preSave sm genCode now).bookingDetails.totalGuests := by
  have hdetails : (b.preSave sm genCode now).bookingDetails =
      { b.bookingDetails with totalGuests :=
          b.bookingDetails.guests.adults + b.bookingDetails.guests.children +
            b.bookingDetails.guests.infants } := by
    unfold Booking.preSave Booking.addStatusUpdate
    cases sm <;> by_cases hcc : b.confirmationCode = "" <;> simp [hcc]
  rw [hdetails]
  obtain ⟨h1, h2, h3⟩ := h
  exact ⟨rfl, by dsimp only; omega⟩

/-- Instantiation of the C3 theorem at the concrete booking (2 adults,
1 child, 0 infants). -/
theorem totalGuests_sum_after_save_witness :
    guestsValid bookingA.bookingDetails.guests ∧
      1 ≤ (bookingA.preSave false "" 0).bookingDetails.totalGuests :=
  ⟨by decide, (totalGuests_sum_after_save bookingA false "" 0 (by decide)).2⟩

/-! ## Review model (`Review.ts`) -/

/-- `rating` sub-document of `Review.ts`: five sub-ratings plus the derived
`overall`.  The schema stores JavaScript numbers; they are modelled as exact
rationals. -/
structure Rating where
  overall : ℚ
  value : ℚ
  service : ℚ
  cleanliness : ℚ
  location : ℚ
  communication : ℚ
deriving DecidableEq, Repr

/-- One entry of `reportedBy` (`Review.ts`, `reportedBy` schema path). -/
structure Report where
  user : ObjectId
  reason : String
  reportedAt : Int
deriving DecidableEq, Repr

/-- `metadata` sub-document of `Review.ts`. -/
structure ReviewMetadata where
  source : String
  ipAddress : Option String
  userAgent : Option String
deriving DecidableEq, Repr

/-- The review document (`Review.ts`), restricted to the fields the claims
are about. -/
structure Review where
  plan : ObjectId
  user : ObjectId
  booking : ObjectId
  rating : Rating
  comment : String
  isAnonymous : Bool
  reportedBy : List Report
  metadata : ReviewMetadata
  createdAt : Int
deriving DecidableEq, Repr

/-- JavaScript `Math.round`: round half away from zero upward, i.e. the floor
of `x + 1/2` for every finite `x`. -/
def jsRound (x : ℚ) : Int := ⌊x + 1 / 2⌋

/-- `calculateAverageRating` (`Review.ts:251-262`): the `ratings` array is the
five sub-ratings, so `sum / ratings.length` is the written-out sum divided
by 5, and `Math.round((sum / 5) * 10) / 10` rounds to one decimal. -/
def Review.calculateAverageRating (r : Review) : ℚ :=
  ((jsRound ((r.rating.value + r.rating.service + r.rating.cleanliness +
      r.rating.location + r.rating.communication) / 5 * 10) : Int) : ℚ) / 10

/-- The `reviewSchema.pre` save hook (`Review.ts:243-248`): when the `rating`
path was modified, `rating.overall` is overwritten with
`calculateAverageRating()`. -/
def Review.preSave (r : Review) (ratingModified : Bool) : Review :=
  if ratingModified then
    { r with rating := { r.rating with overall := r.calculateAverageRating } }
  else r

/-- A client writing `rating.overall` directly (which marks the `rating` path
modified). -/
def Review.setOverall (r : Review) (x : ℚ) : Review :=
  { r with rating := { r.rating with overall := x } }

/-- The server-derived-overall invariant: `rating.overall` equals the rounded
mean of the five sub-ratings. -/
def overallDerived (r : Review) : Prop :=
  r.rating.overall = r.calculateAverageRating

/-- A concrete review with sub-ratings 4, 5, 3, 5, 4 and a client-supplied
`overall` of 1. -/
def reviewA : Review :=
  { plan := ⟨10⟩
    user := ⟨1⟩
    booking := ⟨20⟩
    rating := { overall := 1, value := 4, service := 5, cleanliness := 3,
                location := 5, communication := 4 }
    comment := "Great experience in Tolima"
    isAnonymous := false
    reportedBy := []
    metadata := { source := "web", ipAddress := none, userAgent := none }
    createdAt := 0 }

/-- C4: after a save the server-derived-overall invariant holds — whenever the
rating was written the hook recomputes `overall`, and a save that does not
touch the rating preserves the invariant established by the previous save;
moreover any client-supplied `overall` is overwritten with the rounded mean
of the sub-ratings. -/
theorem overall_rating_server_derived (r : Review) (rm : Bool)
    (h : rm = true ∨ overallDerived r) :
    overallDerived (r.preSave rm) ∧
    ∀ x : ℚ, ((r.setOverall x).preSave true).rating.overall =
      r.calculateAverageRating := by
  constructor
  · cases rm with
    | false =>
      rcases h with h | h
      · exact absurd h (by simp)
      · simpa [Review.preSave] using h
    | true => rfl
  · intro x; rfl

/-- Instantiation of the C4 theorem: saving the concrete review with
sub-ratings 4, 5, 3, 5, 4 overwrites the client-supplied `overall = 1` with
the mean 4.2. -/
theorem overall_rating_server_derived_witness :
    overallDerived (reviewA.preSave true) ∧
      (reviewA.preSave true).rating.overall = 21 / 5 := by
  refine ⟨(overall_rating_server_derived reviewA true (Or.inl rfl)).1, ?_⟩
  show reviewA.calculateAverageRating = 21 / 5
  unfold Review.calculateAverageRating jsRound
  have h42 : ⌊((4 : ℚ) + 5 + 3 + 5 + 4) / 5 * 10 + 1 / 2⌋ = (42 : Int) := by
    rw [Int.floor_eq_iff]
    constructor <;> norm_num
  simp only [reviewA]
  rw [h42]
  norm_num

/-- The serialized form produced by the custom `toJSON` (`Review.ts:309-320`):
the deletable paths are `Option`-valued; everything else is carried over. -/
structure ReviewJSON where
  plan : ObjectId
  user : Option ObjectId
  booking : ObjectId
  rating : Rating
  comment : String
  isAnonymous : Bool
  reportedBy : Option (List Report)
  metadata : Option ReviewMetadata
  createdAt : Int
deriving DecidableEq, Repr

/-- `toJSON` (`Review.ts:309-320`): starts from the full object, deletes
`user` when the review is anonymous, and always deletes `reportedBy` and
`metadata`. -/
def Review.toJSON (r : Review) : ReviewJSON :=
  { plan := r.plan
    user := if r.isAnonymous then none else some r.user
    booking := r.booking
    rating := r.rating
    comment := r.comment
    isAnonymous := r.isAnonymous
    reportedBy := none
    metadata := none
    createdAt := r.createdAt }

/-- C9: the serialized review never contains `reportedBy` or `metadata`, and
an anonymous review's serialization does not contain the author reference. -/
theorem review_toJSON_hides_sensitive (r : Review) :
    (r.toJSON).reportedBy = none ∧ (r.toJSON).metadata = none ∧
      (r.isAnonymous = true → (r.toJSON).user = none) := by
  refine ⟨rfl, rfl, fun h => ?_⟩
  unfold Review.toJSON
  simp [h]

/-- Instantiation of the C9 theorem at a concrete anonymous review. -/
theorem review_toJSON_hides_sensitive_witness :
    ({ reviewA with isAnonymous := true } : Review).toJSON.user = none :=
  (review_toJSON_hides_sensitive { reviewA with isAnonymous := true }).2.2 rfl

/-! ## Notification model (second model in `Booking.ts`) -/

/-- The three delivery channels of the notification schema. -/
inductive Channel
  | push
  | email
  | sms
deriving DecidableEq, Repr

/-- `deliveryStatus` enum of each channel sub-document. -/
inductive DeliveryStatus
  | pending
  | delivered
  | failed
deriving DecidableEq, Repr

/-- Per-channel delivery record (`channels.push` / `.email` / `.sms`). -/
structure ChannelState where
  sent : Bool
  sentAt : Option Int
  deliveryStatus : DeliveryStatus
  errorMessage : Option String
deriving DecidableEq, Repr

/-- The `channels` sub-document. -/
structure Channels where
  push : ChannelState
  email : ChannelState
  sms : ChannelState
deriving DecidableEq, Repr

/-- `this.channels[channel]` indexing. -/
def Channels.get (c : Channels) : Channel → ChannelState
  | .push => c.push
  | .email => c.email
  | .sms => c.sms

/-- The notification document, restricted to the fields the claims are
about; `expiresAt` and `readAt` are epoch milliseconds. -/
structure Notification where
  channels : Channels
  isRead : Bool
  readAt : Option Int
  expiresAt : Option Int
deriving DecidableEq, Repr

/-- `isExpired()`: `this.expiresAt && this.expiresAt < new Date()` — falsy
(hence false) when `expiresAt` is unset, otherwise the strict comparison. -/
def Notification.isExpired (n : Notification) (now : Int) : Bool :=
  match n.expiresAt with
  | none => false
  | some t => decide (t < now)

/-- `shouldBeSent(channel)`: not yet sent on that channel and not expired. -/
def Notification.shouldBeSent (n : Notification) (ch : Channel) (now : Int) :
    Bool :=
  !(n.channels.get ch).sent && !(n.isExpired now)

/-- `markAsRead()`: sets `isRead` and `readAt` only when not yet read. -/
def Notification.markAsRead (n : Notification) (now : Int) : Notification :=
  if !n.isRead then { n with isRead := true, readAt := some now } else n

/-- An unread, unsent concrete notification expiring at time 1000. -/
def notificationA : Notification :=
  { channels :=
      { push := { sent := false, sentAt := none, deliveryStatus := .pending,
                  errorMessage := none }
        email := { sent := false, sentAt := none, deliveryStatus := .pending,
                   errorMessage := none }
        sms := { sent := false, sentAt := none, deliveryStatus := .pending,
                 errorMessage := none } }
    isRead := false
    readAt := none
    expiresAt := some 1000 }

/-- C7: once the expiry time has passed, `shouldBeSent` is false for every
channel, so no channel attempts delivery of an expired notification. -/
theorem expired_notification_not_sent (n : Notification) (ch : Channel)
    (now t : Int) (hexp : n.expiresAt = some t) (hlt : t < now) :
    n.shouldBeSent ch now = false := by
  unfold Notification.shouldBeSent Notification.isExpired
  rw [hexp]
  simp [hlt]

/-- Instantiation of the C7 theorem: the concrete notification expiring at
1000 is not sent on any channel at time 2000. -/
theorem expired_notification_not_sent_witness :
    notificationA.shouldBeSent .push 2000 = false ∧
      notificationA.shouldBeSent .email 2000 = false ∧
      notificationA.shouldBeSent .sms 2000 = false :=
  ⟨expired_notification_not_sent notificationA .push 2000 1000 rfl (by norm_num),
   expired_notification_not_sent notificationA .email 2000 1000 rfl (by norm_num),
   expired_notification_not_sent notificationA .sms 2000 1000 rfl (by norm_num)⟩

/-- C10: `markAsRead` is idempotent — the first call on an unread
notification sets `isRead` and records `readAt`, and a second call leaves
the document (including the original `readAt`) unchanged. -/
theorem markAsRead_idempotent (n : Notification) (t1 t2 : Int) :
    (n.isRead = false →
       (n.markAsRead t1).isRead = true ∧ (n.markAsRead t1).readAt = some t1) ∧
    (n.markAsRead t1).markAsRead t2 = n.markAsRead t1 := by
  unfold Notification.markAsRead
  by_cases h : n.isRead <;> simp [h]

/-- Instantiation of the C10 theorem at the concrete unread notification. -/
theorem markAsRead_idempotent_witness :
    (notificationA.markAsRead 7).readAt = some 7 ∧
      (notificationA.markAsRead 7).markAsRead 9 = notificationA.markAsRead 7 :=
  ⟨((markAsRead_idempotent notificationA 7 9).1 rfl).2,
   (markAsRead_idempotent notificationA 7 9).2⟩

/-! ## User model (`User.ts`), auth service and favorites service -/

/-- `AppError` (`core/errors/AppError.ts`): the claims only need the message
and the HTTP status code it carries. -/
structure AppError where
  message : String
  statusCode : Int
deriving DecidableEq, Repr

/-- One entry of `favoriteDestinations` as built by
`UserService.addFavorite`. -/
structure Favorite where
  destinationId : String
  destinationType : String
  notes : String
  addedAt : Int
deriving DecidableEq, Repr

/-- The user document as the `userSchema` of `User.ts:49-190` persists it,
restricted to the fields the claims are about.  Note the schema declares no
`favoriteDestinations` path: that name appears only in the service layer. -/
structure User where
  _id : ObjectId
  name : String
  email : String
  password : String
  isActive : Bool
deriving DecidableEq, Repr

/-- The `userSchema.pre` save hook (`User.ts:200-210`): when the password
path was modified it is replaced by its bcrypt hash (the hash function is a
parameter; only its application matters to the claims). -/
def userPreSave (bcryptHash : String → String) (u : User)
    (passwordModified : Bool) : User :=
  if passwordModified then { u with password := bcryptHash u.password } else u

/-- `User.findOne({ email })`: first stored user with the given email. -/
def findUserByEmail (db : List User) (email : String) : Option User :=
  db.find? (fun u => decide (u.email = email))

/-- `User.findById(userId)`: first stored user with the given id. -/
def findById (db : List User) (uid : ObjectId) : Option User :=
  db.find? (fun u => decide (u._id = uid))

/-- `LoginDto` (`auth/dtos/login.dto.ts`): the credentials submitted. -/
structure LoginDto where
  email : String
  password : String
deriving DecidableEq, Repr

/-- The payload of a successful login, restricted to the identifying
fields. -/
structure LoginResult where
  userId : ObjectId
  email : String
deriving DecidableEq, Repr

/-- `AuthService.login` (`auth.service.ts:91-151`): find the user by email
(401 when absent), reject deactivated accounts (403), then compare
`loginDto.password === user.password` by plain string equality (401 on
mismatch). -/
def login (db : List User) (dto : LoginDto) : Except AppError LoginResult :=
  match findUserByEmail db dto.email with
  | none => .error { message := "Invalid email or password", statusCode := 401 }
  | some user =>
    if !user.isActive then
      .error { message := "Account is deactivated. Contact support.",
               statusCode := 403 }
    else if dto.password = user.password then
      .ok { userId := user._id, email := user.email }
    else
      .error { message := "Invalid email or password", statusCode := 401 }

/-- Whether `login` succeeds (returns the success envelope rather than
throwing). -/
def loginOk (db : List User) (dto : LoginDto) : Bool :=
  match login db dto with
  | .ok _ => true
  | .error _ => false

/-- A concrete active user storing the password verbatim. -/
def userA : User :=
  { _id := ⟨1⟩
    name := "Alice"
    email := "alice@example.com"
    password := "supersecret1"
    isActive := true }

/-- C5: although the schema-level save hook bcrypt-hashes any modified
password, `login` compares the candidate to the stored password field by
verbatim string equality: for a stored active user it succeeds exactly when
the strings coincide. -/
theorem login_compares_plaintext (db : List User) (dto : LoginDto) (u : User)
    (hfind : findUserByEmail db dto.email = some u)
    (hact : u.isActive = true) :
    (loginOk db dto = true ↔ dto.password = u.password) ∧
    (∀ (bcryptHash : String → String) (v : User),
       (userPreSave bcryptHash v true).password = bcryptHash v.password) := by
  refine ⟨?_, fun bcryptHash v => rfl⟩
  unfold loginOk login
  rw [hfind]
  by_cases hp : dto.password = u.password <;> simp [hact, hp]

/-- Instantiation of the C5 theorem: the concrete user logs in with the
verbatim stored string. -/
theorem login_compares_plaintext_witness :
    loginOk [userA] { email := "alice@example.com",
                      password := "supersecret1" } = true :=
  (login_compares_plaintext [userA]
    { email := "alice@example.com", password := "supersecret1" }
    userA rfl rfl).1.mpr rfl

/-- The `favoriteDestinations` path as read from a hydrated user document
(`user.service.ts:381`): the path is declared neither by `userSchema`
(`User.ts:49-190`) nor by `IUser`, and the schema keeps Mongoose's default
strict mode, so the path is never materialised on a stored document — the
read yields `undefined` (`none`) for every stored user. -/
def User.favoriteDestinationsRead (_ : User) : Option (List Favorite) := none

/-- `User.findByIdAndUpdate` whose update document touches only the
non-schema `favoriteDestinations` path (the `$push` at `user.service.ts:397`
and the `$pull` at `user.service.ts:427`): strict mode strips the unknown
path from the update, so the stored documents are left unchanged. -/
def updateFavoritesStripped (db : List User) (_ : ObjectId) : List User := db

/-- `UserService.addFavorite` (`user.service.ts:369-415`) as executed against
the `User.ts` schema: 404 when the user is absent; the optional-chained
duplicate lookup `user.favoriteDestinations?.find(...)` reads the
non-materialised path; a found duplicate would raise the 400 conflict; the
surviving branch builds the new favorite (`destinationType || 'unknown'`,
`notes || ''`), issues the stripped `$push`, and returns the favorite in the
success envelope. -/
def addFavorite (db : List User) (userId : ObjectId) (destinationId : String)
    (destinationType : Option String) (notes : Option String) (now : Int) :
    Except AppError (List User × Favorite) :=
  match findById db userId with
  | none => .error { message := "User not found", statusCode := 404 }
  | some user =>
    let existingFavorite : Option Favorite :=
      match user.favoriteDestinationsRead with
      | none => none
      | some favs =>
        favs.find? (fun fav => decide (fav.destinationId = destinationId))
    match existingFavorite with
    | some _ =>
      .error { message := "Destination already in favorites",
               statusCode := 400 }
    | none =>
      let newFavorite : Favorite :=
        { destinationId := destinationId
          destinationType := destinationType.getD "unknown"
          notes := notes.getD ""
          addedAt := now }
      .ok (updateFavoritesStripped db userId, newFavorite)

/-- `UserService.removeFavorite` (`user.service.ts:420-444`) as executed
against the `User.ts` schema: 404 when the user is absent, otherwise the
`$pull` on the non-schema path is stripped and success is reported
regardless of the destination id. -/
def removeFavorite (db : List User) (userId : ObjectId)
    (destinationId : String) : Except AppError (List User) :=
  match findById db userId with
  | none => .error { message := "User not found", statusCode := 404 }
  | some _ => .ok (updateFavoritesStripped db userId)

/-- C6 (code bug): because `favoriteDestinations` is not a schema path of
`User.ts`, the duplicate lookup in `addFavorite` always reads an absent list,
so the 400 `Destination already in favorites` rejection is unreachable: for
every stored user every add — in particular an add whose destination id was
already added and acknowledged — reports success with the built favorite
while persisting nothing, and every remove reports success leaving the store
unchanged.  This contradicts the claimed rejection of duplicate adds. -/
theorem favorite_dup_rejection_unreachable (db : List User) (uid : ObjectId)
    (d : String) (dt nts : Option String) (now : Int) (u : User)
    (hfind : findById db uid = some u) :
    addFavorite db uid d dt nts now =
      .ok (db, { destinationId := d, destinationType := dt.getD "unknown",
                 notes := nts.getD "", addedAt := now }) ∧
    removeFavorite db uid d = .ok db := by
  unfold addFavorite removeFavorite updateFavoritesStripped
    User.favoriteDestinationsRead
  rw [hfind]
  exact ⟨rfl, rfl⟩

/-- Instantiation at the failing input: adding destination `dest1` for the
concrete stored user — even immediately after an identical acknowledged add,
since the store provably never changes — returns success instead of the
claimed 400 conflict, and removing `dest1` also trivially succeeds. -/
theorem favorite_dup_rejection_unreachable_witness :
    addFavorite [userA] ⟨1⟩ "dest1" none none 0 =
      .ok ([userA], { destinationId := "dest1", destinationType := "unknown",
                      notes := "", addedAt := 0 }) ∧
    removeFavorite [userA] ⟨1⟩ "dest1" = .ok [userA] :=
  ⟨(favorite_dup_rejection_unreachable [userA] ⟨1⟩ "dest1" none none 0
      userA rfl).1,
   (favorite_dup_rejection_unreachable [userA] ⟨1⟩ "dest1" none none 0
      userA rfl).2⟩

end TolimaGo
